import Mathlib

set_option autoImplicit false

/-
  Shallow embedding of `src/include/static_factory.hpp`.

  The registry of `static_factory<BaseType, KeyType>` is modelled for one
  fixed (BaseType, KeyType, argument signature) instantiation:
    - `α` is the (tupled) argument type of the signature,
    - `β` is `BaseType` (the Value-shape result),
    - `η` is the representation of a heap object pointed to by the handle
      shapes (`BaseType*`, `shared_ptr<BaseType>`, `unique_ptr<BaseType>`
      all hold such an object; a null handle is `none`).
  C++ exceptions become `Except CppError`; `std::hash<KeyType>` (the
  injected `g_hash_function`) becomes an explicit `hashFn` parameter.
-/

namespace SFactory

/-- A C++ exception value: the registry itself throws
`std::runtime_error(msg)`; producers may throw anything, modelled by an
arbitrary code. -/
inductive CppError where
  | runtimeError (msg : String)
  | other (code : Nat)
deriving DecidableEq, Repr

/-- The exception thrown at `throw std::runtime_error("Registry not found")`
(the spec's `RegistryMiss`). -/
def registryMissError : CppError :=
  CppError.runtimeError ("Registry not found")

/-- The exception thrown at
`throw std::runtime_error("no valid registery is found")` in `try_make`
(the spec's `NoRegistryAvailable`); the source's spelling is kept. -/
def noRegistryAvailableError : CppError :=
  CppError.runtimeError ("no valid registery is found")

/-- `detail::unordered_flat_map<size_t, Value>`: a vector of key/value
pairs, searched front to back. -/
structure unordered_flat_map (γ : Type) where
  m_data : List (Nat × γ)

namespace unordered_flat_map

/-- The empty map (default-constructed `m_data`). -/
def emptyMap {γ : Type} : unordered_flat_map γ := ⟨[]⟩

/-- List-level body of `operator[](key)` followed by assignment of `v`:
`find_if` locates the first pair whose key equals `k`; if found its value
is overwritten in place (position preserved), otherwise `(k, v)` is
appended at the back. -/
def storeData {γ : Type} (k : Nat) (v : γ) : List (Nat × γ) → List (Nat × γ)
  | [] => [(k, v)]
  | p :: rest => if p.1 = k then (k, v) :: rest else p :: storeData k v rest

/-- `m[k] = v` (the registration path of the source: `get_registry<...>()[hash] = producer`). -/
def store {γ : Type} (m : unordered_flat_map γ) (k : Nat) (v : γ) : unordered_flat_map γ :=
  ⟨storeData k v m.m_data⟩

/-- List-level body of `find(key)`: first pair whose key equals `k`. -/
def findData? {γ : Type} (k : Nat) : List (Nat × γ) → Option γ
  | [] => none
  | p :: rest => if p.1 = k then some p.2 else findData? k rest

/-- `m.find(k)` as an optional value (`none` models the end iterator). -/
def find? {γ : Type} (m : unordered_flat_map γ) (k : Nat) : Option γ :=
  findData? k m.m_data

/-- Number of entries of a pair list carrying key `k`. -/
def keyCount {γ : Type} (k : Nat) (l : List (Nat × γ)) : Nat :=
  l.countP (fun p => p.1 == k)

theorem findData?_storeData_self {γ : Type} (k : Nat) (v : γ) (l : List (Nat × γ)) :
    findData? k (storeData k v l) = some v := by
  induction l with
  | nil => simp [storeData, findData?]
  | cons p rest ih =>
    by_cases h : p.1 = k
    · simp [storeData, h, findData?]
    · simp [storeData, h, findData?, ih]

theorem keyCount_storeData_of_none {γ : Type} (k : Nat) (v : γ) (l : List (Nat × γ))
    (h0 : findData? k l = none) :
    keyCount k (storeData k v l) = keyCount k l + 1 := by
  induction l with
  | nil => simp [storeData, findData?, keyCount]
  | cons p rest ih =>
    by_cases h : p.1 = k
    · simp [findData?, h] at h0
    · simp [findData?, h] at h0
      have h2 := ih h0
      simp [storeData, h, keyCount, List.countP_cons] at h2 ⊢
      omega

theorem keyCount_storeData_of_some {γ : Type} (k : Nat) (v w : γ) (l : List (Nat × γ))
    (h0 : findData? k l = some w) :
    keyCount k (storeData k v l) = keyCount k l := by
  induction l with
  | nil => simp [findData?] at h0
  | cons p rest ih =>
    by_cases h : p.1 = k
    · simp [storeData, h, keyCount, List.countP_cons]
    · simp [findData?, h] at h0
      have h2 := ih h0
      simp [storeData, h, keyCount, List.countP_cons] at h2 ⊢
      omega

theorem findData?_eq_none_iff_keyCount {γ : Type} (k : Nat) (l : List (Nat × γ)) :
    findData? k l = none ↔ keyCount k l = 0 := by
  induction l with
  | nil => simp [findData?, keyCount]
  | cons p rest ih =>
    by_cases h : p.1 = k
    · simp [findData?, h, keyCount, List.countP_cons]
    · simp [findData?, h, keyCount, List.countP_cons] at ih ⊢
      exact ih

end unordered_flat_map

open unordered_flat_map

/-- The four static registries of one `static_factory` instantiation at one
argument signature: `g_registry<base_type, Args...>`,
`g_registry<base_type*, Args...>`,
`g_registry<std::shared_ptr<base_type>, Args...>` and
`g_registry<std::unique_ptr<base_type>, Args...>`. Producers are the
stored `std::function`s; invoking one may throw. -/
structure Registry (α β η : Type) where
  valueReg : unordered_flat_map (α → Except CppError β)
  ptrReg : unordered_flat_map (α → Except CppError (Option η))
  sharedReg : unordered_flat_map (α → Except CppError (Option η))
  uniqueReg : unordered_flat_map (α → Except CppError (Option η))

/-- All four registries empty (program start). -/
def Registry.emptyReg {α β η : Type} : Registry α β η :=
  ⟨emptyMap, emptyMap, emptyMap, emptyMap⟩

/-- Outcome of `detail::is_related_v` for a `ConcreteType` that passes the
`static_assert`: either `std::is_convertible_v<ConcreteType, base_type>`
holds (the Value branch of `register_type`), or only
`std::is_base_of_v<base_type, ConcreteType>` holds (the handle branch). -/
inductive TypeRel where
  | convertible
  | subtypeOnly
deriving DecidableEq, Repr

/-- A concrete type usable with `register_type<ConcreteType, Args...>`:
`typeId` is `typeid(ConcreteType).hash_code()`, `rel` its compile-time
relationship to `base_type`, `ctorVal` the constructor producing a value
converted to `base_type`, and `ctorObj` the constructor producing a heap
object (`new ConcreteType(...)` and the `make_shared`/`make_unique`
wrappers all run it; it throws or yields an object, never null). -/
structure ConcreteType (α β η : Type) where
  typeId : Nat
  rel : TypeRel
  ctorVal : α → Except CppError β
  ctorObj : α → Except CppError η

/-- `register_type<ConcreteType, Args...>(key)` (lines 142-185): hash the
key; in the convertible case store the value producer in
`g_registry<base_type>`; in the subtype case store the three synthesized
handle producers in the raw, shared and unique registries. -/
def register_type {κ α β η : Type} (hashFn : κ → Nat) (T : ConcreteType α β η)
    (key : κ) (r : Registry α β η) : Registry α β η :=
  let hash := hashFn key
  match T.rel with
  | TypeRel.convertible =>
      { r with valueReg := r.valueReg.store hash T.ctorVal }
  | TypeRel.subtypeOnly =>
      { r with
        ptrReg := r.ptrReg.store hash (fun a => (T.ctorObj a).map some)
        sharedReg := r.sharedReg.store hash (fun a => (T.ctorObj a).map some)
        uniqueReg := r.uniqueReg.store hash (fun a => (T.ctorObj a).map some) }

/-- `register_type<ConcreteType, Args...>()` (lines 187-191): forwards
`typeid(ConcreteType).hash_code()` as the key, so the stored id is
`hashFn` applied to the type identity. Requires the key type to accept a
`size_t`, hence `κ = Nat` here. -/
def register_type_noKey {α β η : Type} (hashFn : Nat → Nat) (T : ConcreteType α β η)
    (r : Registry α β η) : Registry α β η :=
  register_type hashFn T T.typeId r

/-- `make(key, args...)` (lines 197-212): hash the key, look it up in
`g_registry<base_type, Args...>`; at the end iterator throw
`RegistryMiss`, otherwise invoke the producer. The body performs no
writes, so the registry component of the result is the input state. -/
def make {κ α β η : Type} (hashFn : κ → Nat) (r : Registry α β η) (key : κ)
    (a : α) : Except CppError β × Registry α β η :=
  match r.valueReg.find? (hashFn key) with
  | none => (Except.error registryMissError, r)
  | some f => (f a, r)

/-- `make<ConcreteType>(args...)` (lines 218-234): the hash is
`typeid(ConcreteType).hash_code()` itself, NOT passed through
`g_hash_function`. -/
def make_byType {α β η : Type} (T : ConcreteType α β η) (r : Registry α β η)
    (a : α) : Except CppError β × Registry α β η :=
  match r.valueReg.find? T.typeId with
  | none => (Except.error registryMissError, r)
  | some f => (f a, r)

/-- `make_ptr(key, args...)` (lines 283-298). -/
def make_ptr {κ α β η : Type} (hashFn : κ → Nat) (r : Registry α β η) (key : κ)
    (a : α) : Except CppError (Option η) × Registry α β η :=
  match r.ptrReg.find? (hashFn key) with
  | none => (Except.error registryMissError, r)
  | some f => (f a, r)

/-- `make_ptr<ConcreteType>(args...)` (lines 304-319): raw typeid hash, and
a `static_cast` of the produced handle which is the identity on the
model's object representation. -/
def make_ptr_byType {α β η : Type} (T : ConcreteType α β η) (r : Registry α β η)
    (a : α) : Except CppError (Option η) × Registry α β η :=
  match r.ptrReg.find? T.typeId with
  | none => (Except.error registryMissError, r)
  | some f => (f a, r)

/-- `make_shared(key, args...)` (lines 365-380). -/
def make_shared {κ α β η : Type} (hashFn : κ → Nat) (r : Registry α β η) (key : κ)
    (a : α) : Except CppError (Option η) × Registry α β η :=
  match r.sharedReg.find? (hashFn key) with
  | none => (Except.error registryMissError, r)
  | some f => (f a, r)

/-- `make_shared<ConcreteType>(args...)` (lines 386-401): raw typeid hash
plus `static_pointer_cast`, the identity on the model's representation. -/
def make_shared_byType {α β η : Type} (T : ConcreteType α β η) (r : Registry α β η)
    (a : α) : Except CppError (Option η) × Registry α β η :=
  match r.sharedReg.find? T.typeId with
  | none => (Except.error registryMissError, r)
  | some f => (f a, r)

/-- `make_unique(key, args...)` (lines 448-463). -/
def make_unique {κ α β η : Type} (hashFn : κ → Nat) (r : Registry α β η) (key : κ)
    (a : α) : Except CppError (Option η) × Registry α β η :=
  match r.uniqueReg.find? (hashFn key) with
  | none => (Except.error registryMissError, r)
  | some f => (f a, r)

/-- `make_unique<ConcreteType>(args...)` (lines 469-486): raw typeid hash
plus release-and-rewrap, the identity on the model's representation. -/
def make_unique_byType {α β η : Type} (T : ConcreteType α β η) (r : Registry α β η)
    (a : α) : Except CppError (Option η) × Registry α β η :=
  match r.uniqueReg.find? T.typeId with
  | none => (Except.error registryMissError, r)
  | some f => (f a, r)

/-- Loop body of `try_make` (lines 240-273): attempt each entry in order;
a producer that returns ends the loop with its value; a throw is caught
into `eptr` (overwriting any earlier one) and the loop continues. After
the loop: rethrow `eptr` if set; otherwise return a default-constructed
`base_type` when that exists (`dflt = some d`), else throw
`NoRegistryAvailable`. -/
def try_make_loop {α β : Type} (a : α) (dflt : Option β) :
    List (Nat × (α → Except CppError β)) → Option CppError → Except CppError β
  | [], none =>
      (match dflt with
       | some d => Except.ok d
       | none => Except.error noRegistryAvailableError)
  | [], some e => Except.error e
  | q :: rest, _ =>
      (match q.2 a with
       | Except.ok v => Except.ok v
       | Except.error e => try_make_loop a dflt rest (some e))

/-- `try_make(args...)` over `g_registry<base_type, Args...>`; `dflt` is
`some` of the default value exactly when `base_type` is
default-constructible (a compile-time fact of the instantiation). The
body performs no writes. -/
def try_make {α β η : Type} (dflt : Option β) (r : Registry α β η) (a : α) :
    Except CppError β × Registry α β η :=
  (try_make_loop a dflt r.valueReg.m_data none, r)

/-- Loop shared verbatim by `try_make_ptr` (lines 325-355),
`try_make_shared` (lines 407-438) and `try_make_unique` (lines 492-522):
attempt each entry in order; a non-null result (`some o`) is returned; a
null result continues WITHOUT touching `eptr`; a throw is caught into
`eptr` and the loop continues. After the loop: rethrow `eptr` if set,
else return `nullptr` (`ok none`). -/
def try_handle_loop {α η : Type} (a : α) :
    List (Nat × (α → Except CppError (Option η))) → Option CppError →
      Except CppError (Option η)
  | [], none => Except.ok none
  | [], some e => Except.error e
  | q :: rest, eptr =>
      (match q.2 a with
       | Except.ok (some o) => Except.ok (some o)
       | Except.ok none => try_handle_loop a rest eptr
       | Except.error e => try_handle_loop a rest (some e))

/-- `try_make_ptr(args...)` over `g_registry<base_type*, Args...>`. -/
def try_make_ptr {α β η : Type} (r : Registry α β η) (a : α) :
    Except CppError (Option η) × Registry α β η :=
  (try_handle_loop a r.ptrReg.m_data none, r)

/-- `try_make_shared(args...)` over the shared-ownership registry. -/
def try_make_shared {α β η : Type} (r : Registry α β η) (a : α) :
    Except CppError (Option η) × Registry α β η :=
  (try_handle_loop a r.sharedReg.m_data none, r)

/-- `try_make_unique(args...)` over the unique-ownership registry. -/
def try_make_unique {α β η : Type} (r : Registry α β η) (a : α) :
    Except CppError (Option η) × Registry α β η :=
  (try_handle_loop a r.uniqueReg.m_data none, r)

/-- A handle producer q "fails" an attempt in the sense of the fallback
engine when it either throws or returns a null handle. -/
def handleFails {α η : Type} (a : α) (q : Nat × (α → Except CppError (Option η))) : Prop :=
  (∃ e, q.2 a = Except.error e) ∨ q.2 a = Except.ok none

theorem try_make_loop_skip_errors {α β : Type} (a : α) (dflt : Option β)
    (k : Nat) (P : α → Except CppError β) (post : List (Nat × (α → Except CppError β)))
    (v : β) (hP : P a = Except.ok v) :
    ∀ (pre : List (Nat × (α → Except CppError β))),
      (∀ q ∈ pre, ∃ e, q.2 a = Except.error e) →
      ∀ eptr, try_make_loop a dflt (pre ++ (k, P) :: post) eptr = Except.ok v := by
  intro pre
  induction pre with
  | nil =>
    intro _ eptr
    simp [try_make_loop, hP]
  | cons q rest ih =>
    intro hall eptr
    obtain ⟨e, he⟩ := hall q (by simp)
    simp only [List.cons_append, try_make_loop, he]
    exact ih (fun p hp => hall p (by simp [hp])) (some e)

theorem try_make_loop_all_fail {α β : Type} (a : α) (dflt : Option β)
    (plast : Nat × (α → Except CppError β)) :
    ∀ (init : List (Nat × (α → Except CppError β))),
      (∀ q ∈ init ++ [plast], ∃ e, q.2 a = Except.error e) →
      ∀ eptr, try_make_loop a dflt (init ++ [plast]) eptr = plast.2 a := by
  intro init
  induction init with
  | nil =>
    intro hall eptr
    obtain ⟨e, he⟩ := hall plast (by simp)
    simp [try_make_loop, he]
  | cons q rest ih =>
    intro hall eptr
    obtain ⟨e, he⟩ := hall q (by simp)
    simp only [List.cons_append, try_make_loop, he]
    exact ih (fun p hp => hall p (by simp at hp ⊢; tauto)) (some e)

theorem try_handle_loop_skip_fails {α η : Type} (a : α)
    (k : Nat) (P : α → Except CppError (Option η))
    (post : List (Nat × (α → Except CppError (Option η))))
    (o : η) (hP : P a = Except.ok (some o)) :
    ∀ (pre : List (Nat × (α → Except CppError (Option η)))),
      (∀ q ∈ pre, handleFails a q) →
      ∀ eptr, try_handle_loop a (pre ++ (k, P) :: post) eptr = Except.ok (some o) := by
  intro pre
  induction pre with
  | nil =>
    intro _ eptr
    simp [try_handle_loop, hP]
  | cons q rest ih =>
    intro hall eptr
    have hq := hall q (by simp)
    have htail : ∀ p ∈ rest, handleFails a p := fun p hp => hall p (by simp [hp])
    rcases hq with ⟨e, he⟩ | hn
    · simp only [List.cons_append, try_handle_loop, he]
      exact ih htail (some e)
    · simp only [List.cons_append, try_handle_loop, hn]
      exact ih htail eptr

theorem try_handle_loop_all_raise {α η : Type} (a : α)
    (plast : Nat × (α → Except CppError (Option η))) :
    ∀ (init : List (Nat × (α → Except CppError (Option η)))),
      (∀ q ∈ init ++ [plast], ∃ e, q.2 a = Except.error e) →
      ∀ eptr, try_handle_loop a (init ++ [plast]) eptr = plast.2 a := by
  intro init
  induction init with
  | nil =>
    intro hall eptr
    obtain ⟨e, he⟩ := hall plast (by simp)
    simp [try_handle_loop, he]
  | cons q rest ih =>
    intro hall eptr
    obtain ⟨e, he⟩ := hall q (by simp)
    simp only [List.cons_append, try_handle_loop, he]
    exact ih (fun p hp => hall p (by simp at hp ⊢; tauto)) (some e)

theorem try_handle_loop_all_null {α η : Type} (a : α) :
    ∀ (l : List (Nat × (α → Except CppError (Option η)))),
      (∀ q ∈ l, q.2 a = Except.ok none) →
      try_handle_loop a l none = Except.ok none := by
  intro l
  induction l with
  | nil => simp [try_handle_loop]
  | cons q rest ih =>
    intro hall
    have hq := hall q (by simp)
    simp only [try_handle_loop, hq]
    exact ih (fun p hp => hall p (by simp [hp]))

/-- Claim C3: for every key whose hash has no entry in the targeted
(Shape, Signature) partition, each of make, make_ptr, make_shared and
make_unique fails with RegistryMiss and leaves the registry state
unchanged; the conclusion holds for arbitrary producers stored in all
other entries and partitions, so no producer is invoked. -/
theorem c3_miss_semantics {κ α β η : Type} (hashFn : κ → Nat) (r : Registry α β η)
    (k : κ) (a : α) :
    (r.valueReg.find? (hashFn k) = none →
      make hashFn r k a = (Except.error registryMissError, r))
  ∧ (r.ptrReg.find? (hashFn k) = none →
      make_ptr hashFn r k a = (Except.error registryMissError, r))
  ∧ (r.sharedReg.find? (hashFn k) = none →
      make_shared hashFn r k a = (Except.error registryMissError, r))
  ∧ (r.uniqueReg.find? (hashFn k) = none →
      make_unique hashFn r k a = (Except.error registryMissError, r)) := by
  refine ⟨fun h => ?_, fun h => ?_, fun h => ?_, fun h => ?_⟩
  · simp [make, h]
  · simp [make_ptr, h]
  · simp [make_shared, h]
  · simp [make_unique, h]

/-- Closed instance of C3 at the empty registry. -/
theorem c3_witness :
    make id (Registry.emptyReg : Registry Unit Nat Nat) 5 ()
      = (Except.error registryMissError, Registry.emptyReg)
  ∧ make_ptr id (Registry.emptyReg : Registry Unit Nat Nat) 5 ()
      = (Except.error registryMissError, Registry.emptyReg)
  ∧ make_shared id (Registry.emptyReg : Registry Unit Nat Nat) 5 ()
      = (Except.error registryMissError, Registry.emptyReg)
  ∧ make_unique id (Registry.emptyReg : Registry Unit Nat Nat) 5 ()
      = (Except.error registryMissError, Registry.emptyReg) := by
  have h := c3_miss_semantics id (Registry.emptyReg : Registry Unit Nat Nat) 5 ()
  exact ⟨h.1 rfl, h.2.1 rfl, h.2.2.1 rfl, h.2.2.2 rfl⟩

/-- Claim C4: try_make and the three try_make handle variants attempt the
partition's producers in insertion order and return the first success (no
throw for the Value shape; a non-null handle for the handle shapes),
never a later producer's result. -/
theorem c4_fallback_insertion_order {α β η : Type} :
    (∀ (dflt : Option β) (r : Registry α β η) (a : α)
        (pre : List (Nat × (α → Except CppError β))) (k : Nat)
        (P : α → Except CppError β)
        (post : List (Nat × (α → Except CppError β))) (v : β),
        r.valueReg.m_data = pre ++ (k, P) :: post →
        (∀ q ∈ pre, ∃ e, q.2 a = Except.error e) →
        P a = Except.ok v →
        (try_make dflt r a).1 = Except.ok v)
  ∧ (∀ (r : Registry α β η) (a : α)
        (pre : List (Nat × (α → Except CppError (Option η)))) (k : Nat)
        (P : α → Except CppError (Option η))
        (post : List (Nat × (α → Except CppError (Option η)))) (o : η),
        r.ptrReg.m_data = pre ++ (k, P) :: post →
        (∀ q ∈ pre, handleFails a q) →
        P a = Except.ok (some o) →
        (try_make_ptr r a).1 = Except.ok (some o))
  ∧ (∀ (r : Registry α β η) (a : α)
        (pre : List (Nat × (α → Except CppError (Option η)))) (k : Nat)
        (P : α → Except CppError (Option η))
        (post : List (Nat × (α → Except CppError (Option η)))) (o : η),
        r.sharedReg.m_data = pre ++ (k, P) :: post →
        (∀ q ∈ pre, handleFails a q) →
        P a = Except.ok (some o) →
        (try_make_shared r a).1 = Except.ok (some o))
  ∧ (∀ (r : Registry α β η) (a : α)
        (pre : List (Nat × (α → Except CppError (Option η)))) (k : Nat)
        (P : α → Except CppError (Option η))
        (post : List (Nat × (α → Except CppError (Option η)))) (o : η),
        r.uniqueReg.m_data = pre ++ (k, P) :: post →
        (∀ q ∈ pre, handleFails a q) →
        P a = Except.ok (some o) →
        (try_make_unique r a).1 = Except.ok (some o)) := by
  refine ⟨?_, ?_, ?_, ?_⟩
  · intro dflt r a pre k P post v hdata hall hP
    show try_make_loop a dflt r.valueReg.m_data none = Except.ok v
    rw [hdata]
    exact try_make_loop_skip_errors a dflt k P post v hP pre hall none
  · intro r a pre k P post o hdata hall hP
    show try_handle_loop a r.ptrReg.m_data none = Except.ok (some o)
    rw [hdata]
    exact try_handle_loop_skip_fails a k P post o hP pre hall none
  · intro r a pre k P post o hdata hall hP
    show try_handle_loop a r.sharedReg.m_data none = Except.ok (some o)
    rw [hdata]
    exact try_handle_loop_skip_fails a k P post o hP pre hall none
  · intro r a pre k P post o hdata hall hP
    show try_handle_loop a r.uniqueReg.m_data none = Except.ok (some o)
    rw [hdata]
    exact try_handle_loop_skip_fails a k P post o hP pre hall none

/-- Value producer returning `n`. -/
def pOk (n : Nat) : Unit → Except CppError Nat := fun _ => Except.ok n

/-- Value producer throwing exception code `n`. -/
def pErr (n : Nat) : Unit → Except CppError Nat := fun _ => Except.error (CppError.other n)

/-- Handle producer returning a non-null handle to object `n`. -/
def hOk (n : Nat) : Unit → Except CppError (Option Nat) := fun _ => Except.ok (some n)

/-- Handle producer returning a null handle without throwing. -/
def hNull : Unit → Except CppError (Option Nat) := fun _ => Except.ok none

/-- Handle producer throwing exception code `n`. -/
def hErr (n : Nat) : Unit → Except CppError (Option Nat) := fun _ => Except.error (CppError.other n)

/-- Partitions holding producers P1 (fails), P2 (succeeds), P3 (succeeds)
in that insertion order. -/
def regC4 : Registry Unit Nat Nat :=
  ⟨⟨[(1, pErr 1), (2, pOk 2), (3, pOk 3)]⟩,
   ⟨[(1, hErr 1), (2, hOk 2), (3, hOk 3)]⟩,
   ⟨[(1, hErr 1), (2, hOk 2), (3, hOk 3)]⟩,
   ⟨[(1, hErr 1), (2, hOk 2), (3, hOk 3)]⟩⟩

/-- Closed instance of C4: over {P1 fails, P2 succeeds, P3 succeeds} each
try variant returns P2's result. -/
theorem c4_witness :
    (try_make (some 0) regC4 ()).1 = Except.ok 2
  ∧ (try_make_ptr regC4 ()).1 = Except.ok (some 2)
  ∧ (try_make_shared regC4 ()).1 = Except.ok (some 2)
  ∧ (try_make_unique regC4 ()).1 = Except.ok (some 2) := by
  have hpre : ∀ q ∈ [((1 : Nat), pErr 1)], ∃ e, q.2 () = Except.error e := by
    intro q hq
    simp at hq
    subst hq
    exact ⟨CppError.other 1, rfl⟩
  have hpreH : ∀ q ∈ [((1 : Nat), hErr 1)], handleFails () q := by
    intro q hq
    simp at hq
    subst hq
    exact Or.inl ⟨CppError.other 1, rfl⟩
  refine ⟨?_, ?_, ?_, ?_⟩
  · exact (c4_fallback_insertion_order (α := Unit) (β := Nat) (η := Nat)).1
      (some 0) regC4 () [(1, pErr 1)] 2 (pOk 2) [(3, pOk 3)] 2 rfl hpre rfl
  · exact (c4_fallback_insertion_order (α := Unit) (β := Nat) (η := Nat)).2.1
      regC4 () [(1, hErr 1)] 2 (hOk 2) [(3, hOk 3)] 2 rfl hpreH rfl
  · exact (c4_fallback_insertion_order (α := Unit) (β := Nat) (η := Nat)).2.2.1
      regC4 () [(1, hErr 1)] 2 (hOk 2) [(3, hOk 3)] 2 rfl hpreH rfl
  · exact (c4_fallback_insertion_order (α := Unit) (β := Nat) (η := Nat)).2.2.2
      regC4 () [(1, hErr 1)] 2 (hOk 2) [(3, hOk 3)] 2 rfl hpreH rfl

/-- Claim C5: try_make over an empty Value partition returns the default
value when base_type is default-constructible, and otherwise fails with
NoRegistryAvailable; no producer exists to be invoked. -/
theorem c5_empty_partition {α β η : Type} (r : Registry α β η) (a : α)
    (hempty : r.valueReg.m_data = []) :
    (∀ d : β, try_make (some d) r a = (Except.ok d, r))
  ∧ try_make (none : Option β) r a = (Except.error noRegistryAvailableError, r) := by
  constructor
  · intro d
    simp [try_make, hempty, try_make_loop]
  · simp [try_make, hempty, try_make_loop]

/-- Closed instance of C5 at the empty registry. -/
theorem c5_witness :
    try_make (some 0) (Registry.emptyReg : Registry Unit Nat Nat) ()
      = (Except.ok 0, Registry.emptyReg)
  ∧ try_make (none : Option Nat) (Registry.emptyReg : Registry Unit Nat Nat) ()
      = (Except.error noRegistryAvailableError, Registry.emptyReg) := by
  have h := c5_empty_partition (Registry.emptyReg : Registry Unit Nat Nat) () rfl
  exact ⟨h.1 0, h.2⟩

/-- Claim C7: when every producer of a non-empty partition raises, each
try variant re-raises exactly the failure of the last entry attempted
(the partition's last entry); earlier failures are swallowed. -/
theorem c7_all_fail_rethrows_last {α β η : Type} :
    (∀ (dflt : Option β) (r : Registry α β η) (a : α)
        (init : List (Nat × (α → Except CppError β)))
        (plast : Nat × (α → Except CppError β)),
        r.valueReg.m_data = init ++ [plast] →
        (∀ q ∈ r.valueReg.m_data, ∃ e, q.2 a = Except.error e) →
        (try_make dflt r a).1 = plast.2 a)
  ∧ (∀ (r : Registry α β η) (a : α)
        (init : List (Nat × (α → Except CppError (Option η))))
        (plast : Nat × (α → Except CppError (Option η))),
        r.ptrReg.m_data = init ++ [plast] →
        (∀ q ∈ r.ptrReg.m_data, ∃ e, q.2 a = Except.error e) →
        (try_make_ptr r a).1 = plast.2 a)
  ∧ (∀ (r : Registry α β η) (a : α)
        (init : List (Nat × (α → Except CppError (Option η))))
        (plast : Nat × (α → Except CppError (Option η))),
        r.sharedReg.m_data = init ++ [plast] →
        (∀ q ∈ r.sharedReg.m_data, ∃ e, q.2 a = Except.error e) →
        (try_make_shared r a).1 = plast.2 a)
  ∧ (∀ (r : Registry α β η) (a : α)
        (init : List (Nat × (α → Except CppError (Option η))))
        (plast : Nat × (α → Except CppError (Option η))),
        r.uniqueReg.m_data = init ++ [plast] →
        (∀ q ∈ r.uniqueReg.m_data, ∃ e, q.2 a = Except.error e) →
        (try_make_unique r a).1 = plast.2 a) := by
  refine ⟨?_, ?_, ?_, ?_⟩
  · intro dflt r a init plast hdata hall
    rw [hdata] at hall
    show try_make_loop a dflt r.valueReg.m_data none = plast.2 a
    rw [hdata]
    exact try_make_loop_all_fail a dflt plast init hall none
  · intro r a init plast hdata hall
    rw [hdata] at hall
    show try_handle_loop a r.ptrReg.m_data none = plast.2 a
    rw [hdata]
    exact try_handle_loop_all_raise a plast init hall none
  · intro r a init plast hdata hall
    rw [hdata] at hall
    show try_handle_loop a r.sharedReg.m_data none = plast.2 a
    rw [hdata]
    exact try_handle_loop_all_raise a plast init hall none
  · intro r a init plast hdata hall
    rw [hdata] at hall
    show try_handle_loop a r.uniqueReg.m_data none = plast.2 a
    rw [hdata]
    exact try_handle_loop_all_raise a plast init hall none

/-- Partitions in which every producer raises; the first raises code 1,
the last raises code 2. -/
def regC7 : Registry Unit Nat Nat :=
  ⟨⟨[(1, pErr 1), (2, pErr 2)]⟩,
   ⟨[(1, hErr 1), (2, hErr 2)]⟩,
   ⟨[(1, hErr 1), (2, hErr 2)]⟩,
   ⟨[(1, hErr 1), (2, hErr 2)]⟩⟩

/-- Closed instance of C7: the rethrown failure is the last one (code 2),
not the first (code 1). -/
theorem c7_witness :
    (try_make (some 0) regC7 ()).1 = Except.error (CppError.other 2)
  ∧ (try_make_ptr regC7 ()).1 = Except.error (CppError.other 2)
  ∧ (try_make_shared regC7 ()).1 = Except.error (CppError.other 2)
  ∧ (try_make_unique regC7 ()).1 = Except.error (CppError.other 2) := by
  have hallV : ∀ q ∈ regC7.valueReg.m_data, ∃ e, q.2 () = Except.error e := by
    intro q hq
    simp [regC7] at hq
    rcases hq with rfl | rfl
    · exact ⟨CppError.other 1, rfl⟩
    · exact ⟨CppError.other 2, rfl⟩
  have hallH : ∀ q ∈ ([(1, hErr 1), (2, hErr 2)] : List (Nat × (Unit → Except CppError (Option Nat)))),
      ∃ e, q.2 () = Except.error e := by
    intro q hq
    simp at hq
    rcases hq with rfl | rfl
    · exact ⟨CppError.other 1, rfl⟩
    · exact ⟨CppError.other 2, rfl⟩
  refine ⟨?_, ?_, ?_, ?_⟩
  · exact (c7_all_fail_rethrows_last (α := Unit) (β := Nat) (η := Nat)).1
      (some 0) regC7 () [(1, pErr 1)] (2, pErr 2) rfl hallV
  · exact (c7_all_fail_rethrows_last (α := Unit) (β := Nat) (η := Nat)).2.1
      regC7 () [(1, hErr 1)] (2, hErr 2) rfl hallH
  · exact (c7_all_fail_rethrows_last (α := Unit) (β := Nat) (η := Nat)).2.2.1
      regC7 () [(1, hErr 1)] (2, hErr 2) rfl hallH
  · exact (c7_all_fail_rethrows_last (α := Unit) (β := Nat) (η := Nat)).2.2.2
      regC7 () [(1, hErr 1)] (2, hErr 2) rfl hallH

/-- Claim C8: when a direct make/make_ptr/make_shared/make_unique call
resolves its key to a producer f, the call's outcome is exactly `f a` and
the state is untouched: a failure of f propagates unchanged and no other
producer is attempted. -/
theorem c8_direct_call_propagates {κ α β η : Type} (hashFn : κ → Nat)
    (r : Registry α β η) (k : κ) (a : α) :
    (∀ f, r.valueReg.find? (hashFn k) = some f → make hashFn r k a = (f a, r))
  ∧ (∀ f, r.ptrReg.find? (hashFn k) = some f → make_ptr hashFn r k a = (f a, r))
  ∧ (∀ f, r.sharedReg.find? (hashFn k) = some f → make_shared hashFn r k a = (f a, r))
  ∧ (∀ f, r.uniqueReg.find? (hashFn k) = some f → make_unique hashFn r k a = (f a, r)) := by
  refine ⟨fun f h => ?_, fun f h => ?_, fun f h => ?_, fun f h => ?_⟩
  · simp [make, h]
  · simp [make_ptr, h]
  · simp [make_shared, h]
  · simp [make_unique, h]

/-- A registry resolving key 5 to a throwing value producer (code 7) and
to a succeeding shared producer. -/
def regC8 : Registry Unit Nat Nat :=
  ⟨⟨[(5, pErr 7)]⟩, ⟨[(5, hErr 7)]⟩, ⟨[(5, hOk 7)]⟩, ⟨[(5, hErr 7)]⟩⟩

/-- Closed instance of C8: the producer's exception (code 7) reaches the
caller unchanged; a succeeding producer's value reaches it unchanged. -/
theorem c8_witness :
    make id regC8 5 () = (Except.error (CppError.other 7), regC8)
  ∧ make_shared id regC8 5 () = (Except.ok (some 7), regC8) := by
  have h := c8_direct_call_propagates id regC8 5 ()
  exact ⟨h.1 (pErr 7) rfl, h.2.2.1 (hOk 7) rfl⟩

/-- Claim C10: when every producer of a handle partition returns a null
handle without raising, try_make_ptr / try_make_shared / try_make_unique
return nullptr successfully: no NoRegistryAvailable failure, and the null
returns are not recorded as failures to rethrow. -/
theorem c10_all_null_returns_null {α β η : Type} (r : Registry α β η) (a : α) :
    (r.ptrReg.m_data ≠ [] → (∀ q ∈ r.ptrReg.m_data, q.2 a = Except.ok none) →
      try_make_ptr r a = (Except.ok none, r))
  ∧ (r.sharedReg.m_data ≠ [] → (∀ q ∈ r.sharedReg.m_data, q.2 a = Except.ok none) →
      try_make_shared r a = (Except.ok none, r))
  ∧ (r.uniqueReg.m_data ≠ [] → (∀ q ∈ r.uniqueReg.m_data, q.2 a = Except.ok none) →
      try_make_unique r a = (Except.ok none, r)) := by
  refine ⟨fun _ hall => ?_, fun _ hall => ?_, fun _ hall => ?_⟩
  · simp only [try_make_ptr, try_handle_loop_all_null a r.ptrReg.m_data hall]
  · simp only [try_make_shared, try_handle_loop_all_null a r.sharedReg.m_data hall]
  · simp only [try_make_unique, try_handle_loop_all_null a r.uniqueReg.m_data hall]

/-- Handle partitions whose producers all return null without raising. -/
def regC10 : Registry Unit Nat Nat :=
  ⟨emptyMap, ⟨[(1, hNull), (2, hNull)]⟩, ⟨[(1, hNull)]⟩, ⟨[(1, hNull)]⟩⟩

/-- Closed instance of C10. -/
theorem c10_witness :
    try_make_ptr regC10 () = (Except.ok none, regC10)
  ∧ try_make_shared regC10 () = (Except.ok none, regC10)
  ∧ try_make_unique regC10 () = (Except.ok none, regC10) := by
  have h := c10_all_null_returns_null regC10 ()
  have hp : ∀ q ∈ regC10.ptrReg.m_data, q.2 () = Except.ok none := by
    intro q hq
    simp [regC10] at hq
    rcases hq with rfl | rfl
    · rfl
    · rfl
  have hs : ∀ q ∈ regC10.sharedReg.m_data, q.2 () = Except.ok none := by
    intro q hq
    simp [regC10] at hq
    subst hq
    rfl
  have hu : ∀ q ∈ regC10.uniqueReg.m_data, q.2 () = Except.ok none := by
    intro q hq
    simp [regC10] at hq
    subst hq
    rfl
  exact ⟨h.1 (by simp [regC10]) hp, h.2.1 (by simp [regC10]) hs, h.2.2 (by simp [regC10]) hu⟩

/-- A value-convertible concrete type with typeid hash code 0 whose
constructor yields 7. -/
def cexType : ConcreteType Unit Nat Nat :=
  ⟨0, TypeRel.convertible, pOk 7, fun _ => Except.ok 7⟩

/-- Claim C1 as stated is false: with the injected hasher `Nat.succ` (a
legal `std::hash` for an integral key type), `register_type<T>()` stores
the producer under `hash(typeid(T).hash_code()) = 1`, but `make<T>` looks
up the raw `typeid(T).hash_code() = 0` and fails with RegistryMiss. -/
theorem c1_counterexample :
    (make_byType cexType (register_type_noKey Nat.succ cexType Registry.emptyReg) ()).1
      = Except.error registryMissError := by
  rfl

/-- Claim C1, amended: the by-type-identity round-trip succeeds provided
the injected key hasher maps the concrete type's identity code to itself
(`hashFn (typeid) = typeid`, as with the identity `std::hash` over
integral keys in common standard libraries); registration stores under
the hashed code while by-type lookup uses the raw code, so this condition
is exactly what makes them meet. -/
theorem c1_roundtrip {α β η : Type} (hashFn : Nat → Nat) (T : ConcreteType α β η)
    (r : Registry α β η) (a : α) (hfix : hashFn T.typeId = T.typeId) :
    (T.rel = TypeRel.convertible →
      (make_byType T (register_type_noKey hashFn T r) a).1 = T.ctorVal a)
  ∧ (T.rel = TypeRel.subtypeOnly →
      (make_ptr_byType T (register_type_noKey hashFn T r) a).1 = (T.ctorObj a).map some
    ∧ (make_shared_byType T (register_type_noKey hashFn T r) a).1 = (T.ctorObj a).map some
    ∧ (make_unique_byType T (register_type_noKey hashFn T r) a).1 = (T.ctorObj a).map some) := by
  constructor
  · intro hrel
    have hfind : (register_type_noKey hashFn T r).valueReg.find? T.typeId = some T.ctorVal := by
      simp [register_type_noKey, register_type, hrel, hfix, unordered_flat_map.find?,
        unordered_flat_map.store, findData?_storeData_self]
    simp [make_byType, hfind]
  · intro hrel
    have hp : (register_type_noKey hashFn T r).ptrReg.find? T.typeId
        = some (fun a => (T.ctorObj a).map some) := by
      simp [register_type_noKey, register_type, hrel, hfix, unordered_flat_map.find?,
        unordered_flat_map.store, findData?_storeData_self]
    have hs : (register_type_noKey hashFn T r).sharedReg.find? T.typeId
        = some (fun a => (T.ctorObj a).map some) := by
      simp [register_type_noKey, register_type, hrel, hfix, unordered_flat_map.find?,
        unordered_flat_map.store, findData?_storeData_self]
    have hu : (register_type_noKey hashFn T r).uniqueReg.find? T.typeId
        = some (fun a => (T.ctorObj a).map some) := by
      simp [register_type_noKey, register_type, hrel, hfix, unordered_flat_map.find?,
        unordered_flat_map.store, findData?_storeData_self]
    exact ⟨by simp [make_ptr_byType, hp], by simp [make_shared_byType, hs],
      by simp [make_unique_byType, hu]⟩

/-- Closed instance of the amended C1 with the identity hasher. -/
theorem c1_witness :
    (make_byType cexType (register_type_noKey id cexType Registry.emptyReg) ()).1
      = Except.ok 7 := by
  have h := (c1_roundtrip id cexType Registry.emptyReg () rfl).1 rfl
  simpa [cexType, pOk] using h

/-- Storing A then B under the same key in one partition leaves exactly
one entry for that key (given the at-most-one invariant the maps
maintain) holding B. -/
theorem storeData_twice_lastWins {γ : Type} (h : Nat) (A B : γ) (l : List (Nat × γ))
    (hc : keyCount h l ≤ 1) :
    keyCount h (storeData h B (storeData h A l)) = 1
  ∧ findData? h (storeData h B (storeData h A l)) = some B := by
  have hcnt1 : keyCount h (storeData h A l) = 1 := by
    cases hf : findData? h l with
    | none =>
      have h0 := (findData?_eq_none_iff_keyCount h l).1 hf
      rw [keyCount_storeData_of_none _ _ _ hf, h0]
    | some w =>
      have h1 : keyCount h l ≠ 0 := by
        intro hz
        have h2 := (findData?_eq_none_iff_keyCount h l).2 hz
        rw [hf] at h2
        exact Option.noConfusion h2
      have hone : keyCount h l = 1 := by omega
      rw [keyCount_storeData_of_some _ _ w _ hf, hone]
  constructor
  · rw [keyCount_storeData_of_some _ _ A _ (findData?_storeData_self h A l), hcnt1]
  · exact findData?_storeData_self h B _

/-- Claim C2: for every key k and producers A and B registered in
sequence under k into the same (Shape, Signature) partition, that
partition afterwards contains exactly one entry for hash(k) and the
shape's make variant yields B's result, not A's: for value-convertible
types the Value partition and make; for subtype-only types each of the
RawHandle, SharedOwnership and UniqueOwnership partitions with make_ptr,
make_shared and make_unique. register_type returns no value and
overwrites silently (it is total and never signals). -/
theorem c2_last_write_wins {κ α β η : Type} (hashFn : κ → Nat) (k : κ)
    (TA TB : ConcreteType α β η) (r : Registry α β η) (a : α) :
    (TA.rel = TypeRel.convertible → TB.rel = TypeRel.convertible →
      keyCount (hashFn k) r.valueReg.m_data ≤ 1 →
      keyCount (hashFn k)
        (register_type hashFn TB k (register_type hashFn TA k r)).valueReg.m_data = 1
      ∧ (register_type hashFn TB k (register_type hashFn TA k r)).valueReg.find? (hashFn k)
          = some TB.ctorVal
      ∧ (make hashFn (register_type hashFn TB k (register_type hashFn TA k r)) k a).1
          = TB.ctorVal a)
  ∧ (TA.rel = TypeRel.subtypeOnly → TB.rel = TypeRel.subtypeOnly →
      keyCount (hashFn k) r.ptrReg.m_data ≤ 1 →
      keyCount (hashFn k) r.sharedReg.m_data ≤ 1 →
      keyCount (hashFn k) r.uniqueReg.m_data ≤ 1 →
      (keyCount (hashFn k)
          (register_type hashFn TB k (register_type hashFn TA k r)).ptrReg.m_data = 1
        ∧ (make_ptr hashFn (register_type hashFn TB k (register_type hashFn TA k r)) k a).1
            = (TB.ctorObj a).map some)
      ∧ (keyCount (hashFn k)
          (register_type hashFn TB k (register_type hashFn TA k r)).sharedReg.m_data = 1
        ∧ (make_shared hashFn (register_type hashFn TB k (register_type hashFn TA k r)) k a).1
            = (TB.ctorObj a).map some)
      ∧ (keyCount (hashFn k)
          (register_type hashFn TB k (register_type hashFn TA k r)).uniqueReg.m_data = 1
        ∧ (make_unique hashFn (register_type hashFn TB k (register_type hashFn TA k r)) k a).1
            = (TB.ctorObj a).map some)) := by
  constructor
  · intro hA hB hcount
    have hdata : (register_type hashFn TB k (register_type hashFn TA k r)).valueReg.m_data
        = storeData (hashFn k) TB.ctorVal (storeData (hashFn k) TA.ctorVal r.valueReg.m_data) := by
      simp [register_type, hA, hB, unordered_flat_map.store]
    have hlw := storeData_twice_lastWins (hashFn k) TA.ctorVal TB.ctorVal
      r.valueReg.m_data hcount
    have hfind : (register_type hashFn TB k (register_type hashFn TA k r)).valueReg.find? (hashFn k)
        = some TB.ctorVal := by
      simp [unordered_flat_map.find?, hdata, hlw.2]
    refine ⟨?_, hfind, by simp [make, hfind]⟩
    rw [hdata]
    exact hlw.1
  · intro hA hB hcp hcs hcu
    have hdp : (register_type hashFn TB k (register_type hashFn TA k r)).ptrReg.m_data
        = storeData (hashFn k) (fun x => (TB.ctorObj x).map some)
            (storeData (hashFn k) (fun x => (TA.ctorObj x).map some) r.ptrReg.m_data) := by
      simp [register_type, hA, hB, unordered_flat_map.store]
    have hds : (register_type hashFn TB k (register_type hashFn TA k r)).sharedReg.m_data
        = storeData (hashFn k) (fun x => (TB.ctorObj x).map some)
            (storeData (hashFn k) (fun x => (TA.ctorObj x).map some) r.sharedReg.m_data) := by
      simp [register_type, hA, hB, unordered_flat_map.store]
    have hdu : (register_type hashFn TB k (register_type hashFn TA k r)).uniqueReg.m_data
        = storeData (hashFn k) (fun x => (TB.ctorObj x).map some)
            (storeData (hashFn k) (fun x => (TA.ctorObj x).map some) r.uniqueReg.m_data) := by
      simp [register_type, hA, hB, unordered_flat_map.store]
    have hlwp := storeData_twice_lastWins (hashFn k) (fun x => (TA.ctorObj x).map some)
      (fun x => (TB.ctorObj x).map some) r.ptrReg.m_data hcp
    have hlws := storeData_twice_lastWins (hashFn k) (fun x => (TA.ctorObj x).map some)
      (fun x => (TB.ctorObj x).map some) r.sharedReg.m_data hcs
    have hlwu := storeData_twice_lastWins (hashFn k) (fun x => (TA.ctorObj x).map some)
      (fun x => (TB.ctorObj x).map some) r.uniqueReg.m_data hcu
    have hfp : (register_type hashFn TB k (register_type hashFn TA k r)).ptrReg.find? (hashFn k)
        = some (fun x => (TB.ctorObj x).map some) := by
      simp [unordered_flat_map.find?, hdp, hlwp.2]
    have hfs : (register_type hashFn TB k (register_type hashFn TA k r)).sharedReg.find? (hashFn k)
        = some (fun x => (TB.ctorObj x).map some) := by
      simp [unordered_flat_map.find?, hds, hlws.2]
    have hfu : (register_type hashFn TB k (register_type hashFn TA k r)).uniqueReg.find? (hashFn k)
        = some (fun x => (TB.ctorObj x).map some) := by
      simp [unordered_flat_map.find?, hdu, hlwu.2]
    refine ⟨⟨?_, by simp [make_ptr, hfp]⟩, ⟨?_, by simp [make_shared, hfs]⟩,
      ⟨?_, by simp [make_unique, hfu]⟩⟩
    · rw [hdp]
      exact hlwp.1
    · rw [hds]
      exact hlws.1
    · rw [hdu]
      exact hlwu.1

/-- Concrete type A (value shape, yields 1). -/
def ctA : ConcreteType Unit Nat Nat := ⟨0, TypeRel.convertible, pOk 1, fun _ => Except.ok 1⟩

/-- Concrete type B (value shape, yields 2). -/
def ctB : ConcreteType Unit Nat Nat := ⟨0, TypeRel.convertible, pOk 2, fun _ => Except.ok 2⟩

/-- Concrete subtype-only type A (handle shapes, constructs object 3). -/
def ctSubA : ConcreteType Unit Nat Nat := ⟨0, TypeRel.subtypeOnly, pOk 1, fun _ => Except.ok 3⟩

/-- Concrete subtype-only type B (handle shapes, constructs object 4). -/
def ctSubB : ConcreteType Unit Nat Nat := ⟨0, TypeRel.subtypeOnly, pOk 2, fun _ => Except.ok 4⟩

/-- Closed instance of C2: after registering A then B under key 5, make(5)
yields B's result in the Value partition, and make_ptr/make_shared/
make_unique yield B's result in each handle partition. -/
theorem c2_witness :
    (make id (register_type id ctB 5 (register_type id ctA 5 Registry.emptyReg)) 5 ()).1
      = Except.ok 2
  ∧ (make_ptr id (register_type id ctSubB 5 (register_type id ctSubA 5 Registry.emptyReg)) 5 ()).1
      = Except.ok (some 4)
  ∧ (make_shared id (register_type id ctSubB 5 (register_type id ctSubA 5 Registry.emptyReg)) 5 ()).1
      = Except.ok (some 4)
  ∧ (make_unique id (register_type id ctSubB 5 (register_type id ctSubA 5 Registry.emptyReg)) 5 ()).1
      = Except.ok (some 4) := by
  have h1 := (c2_last_write_wins id 5 ctA ctB Registry.emptyReg ()).1 rfl rfl
    (by simp [keyCount, Registry.emptyReg, unordered_flat_map.emptyMap])
  have h2 := (c2_last_write_wins id 5 ctSubA ctSubB Registry.emptyReg ()).2 rfl rfl
    (by simp [keyCount, Registry.emptyReg, unordered_flat_map.emptyMap])
    (by simp [keyCount, Registry.emptyReg, unordered_flat_map.emptyMap])
    (by simp [keyCount, Registry.emptyReg, unordered_flat_map.emptyMap])
  refine ⟨?_, ?_, ?_, ?_⟩
  · simpa [ctB, pOk] using h1.2.2
  · simpa [ctSubB, Except.map] using h2.1.2
  · simpa [ctSubB, Except.map] using h2.2.1.2
  · simpa [ctSubB, Except.map] using h2.2.2.2

/-- Claim C6: registering a subtype-only concrete type under a key
populates exactly the RawHandle, SharedOwnership and UniqueOwnership
partitions (the Value partition is untouched), so make_ptr, make_shared
and make_unique construct it while make under the same key still fails
with RegistryMiss. -/
theorem c6_shape_isolation {κ α β η : Type} (hashFn : κ → Nat) (T : ConcreteType α β η)
    (k : κ) (r : Registry α β η) (a : α)
    (hrel : T.rel = TypeRel.subtypeOnly)
    (hval : r.valueReg.find? (hashFn k) = none) :
    (register_type hashFn T k r).valueReg = r.valueReg
  ∧ (make_ptr hashFn (register_type hashFn T k r) k a).1 = (T.ctorObj a).map some
  ∧ (make_shared hashFn (register_type hashFn T k r) k a).1 = (T.ctorObj a).map some
  ∧ (make_unique hashFn (register_type hashFn T k r) k a).1 = (T.ctorObj a).map some
  ∧ (make hashFn (register_type hashFn T k r) k a).1 = Except.error registryMissError := by
  have hv : (register_type hashFn T k r).valueReg = r.valueReg := by
    simp [register_type, hrel]
  have hp : (register_type hashFn T k r).ptrReg.find? (hashFn k)
      = some (fun a => (T.ctorObj a).map some) := by
    simp [register_type, hrel, unordered_flat_map.find?, unordered_flat_map.store,
      findData?_storeData_self]
  have hs : (register_type hashFn T k r).sharedReg.find? (hashFn k)
      = some (fun a => (T.ctorObj a).map some) := by
    simp [register_type, hrel, unordered_flat_map.find?, unordered_flat_map.store,
      findData?_storeData_self]
  have hu : (register_type hashFn T k r).uniqueReg.find? (hashFn k)
      = some (fun a => (T.ctorObj a).map some) := by
    simp [register_type, hrel, unordered_flat_map.find?, unordered_flat_map.store,
      findData?_storeData_self]
  refine ⟨hv, ?_, ?_, ?_, ?_⟩
  · simp [make_ptr, hp]
  · simp [make_shared, hs]
  · simp [make_unique, hu]
  · simp [make, hv, hval]

/-- A subtype-only concrete type with constructor yielding object 3. -/
def ctSub : ConcreteType Unit Nat Nat := ⟨0, TypeRel.subtypeOnly, pOk 9, fun _ => Except.ok 3⟩

/-- Closed instance of C6. -/
theorem c6_witness :
    (make_ptr id (register_type id ctSub 4 Registry.emptyReg) 4 ()).1 = Except.ok (some 3)
  ∧ (make_shared id (register_type id ctSub 4 Registry.emptyReg) 4 ()).1 = Except.ok (some 3)
  ∧ (make_unique id (register_type id ctSub 4 Registry.emptyReg) 4 ()).1 = Except.ok (some 3)
  ∧ (make id (register_type id ctSub 4 Registry.emptyReg) 4 ()).1
      = Except.error registryMissError := by
  have h := c6_shape_isolation id ctSub 4 Registry.emptyReg () rfl rfl
  refine ⟨?_, ?_, ?_, h.2.2.2.2⟩
  · simpa [ctSub] using h.2.1
  · simpa [ctSub] using h.2.2.1
  · simpa [ctSub] using h.2.2.2.1

end SFactory
